import Mathlib

/-!
Shallow embedding of the startup configuration logic of the datastore
plugin (src/ckanext/datastore/plugin.py).

The embedding follows the source line by line:
  - `configure` models `DatastorePlugin.configure`;
  - `isReadOnlyDatabase` models `_is_read_only_database`;
  - `sameCkanAndDatastoreDb` models `_same_ckan_and_datastore_db`;
  - `getDbFromUrl` models `_get_db_from_url` (partial: raises ValueError
    when the URL has no at-sign, as `str.rindex` does);
  - `readConnectionHasCorrectPrivileges` models
    `_read_connection_has_correct_privileges`, with Python try/finally
    semantics (an exception raised in the finally block replaces the
    in-flight result);
  - `decorateStep` models the one-time wrapping of the resource_show
    action guarded by the `_datastore_wrapped` attribute.

Database behaviour that the source only observes through queries
(schema CREATE privilege per connection URL, table privileges of the
read role on the probe table, failure of the probe DDL statements) is
an explicit environment; every engine connection, warning, critical log
and DDL statement the source issues is recorded in a trace of effects.
-/

namespace Datastore

/-- Errors that `configure` and its helpers can raise. In the source all
of these are plain Python exceptions; the constructors record which
raise site produced them. -/
inductive Err
  | missingWriteUrl
  | keyError
  | sameDatabase
  | privilegeEscalation
  | valueError
  | undefinedTable
  | createFailed
  | queryFailed
deriving DecidableEq, Repr

/-- Equality of Except values is decidable componentwise. -/
instance {ε : Type u} {α : Type v} [DecidableEq ε] [DecidableEq α] :
    DecidableEq (Except ε α) := fun x y =>
  match x, y with
  | Except.error a, Except.error b =>
    if h : a = b then isTrue (congrArg Except.error h)
    else isFalse (fun hh => h (Except.error.inj hh))
  | Except.ok a, Except.ok b =>
    if h : a = b then isTrue (congrArg Except.ok h)
    else isFalse (fun hh => h (Except.ok.inj hh))
  | Except.error _, Except.ok _ => isFalse (fun hh => Except.noConfusion hh)
  | Except.ok _, Except.error _ => isFalse (fun hh => Except.noConfusion hh)

/-- Observable side effects of `configure`: engine connections, log
messages, and the two DDL provisioning statements. -/
inductive Eff
  | connect (url : String)
  | warnPaster
  | warnLegacy
  | warnReadOnly
  | warnNotPg
  | logCritical
  | ddlCreateAliasView
  | ddlCreateIsValidTypeFunction
deriving DecidableEq, Repr

/-- The configuration mapping, restricted to the keys the source reads:
`ckan.datastore.write_url`, `ckan.datastore.read_url`,
`sqlalchemy.url`, and `debug`. `debug = true` models the Python
condition `'debug' in config and config['debug']` being truthy. -/
structure Config where
  write_url : Option String
  read_url : Option String
  sqlalchemy_url : Option String
  debug : Bool
deriving DecidableEq, Repr

/-- The registered resource_show action, abstracted to what the wrapping
code observes: how many datastore queries one invocation issues, and
whether the `_datastore_wrapped` marker attribute is set on it. -/
structure Action where
  queries : Nat
  datastore_wrapped : Bool
deriving DecidableEq, Repr

/-- State of the database as seen by the privilege probe
`_read_connection_has_correct_privileges`: whether the probe table
`public._foo` currently exists, whether the CREATE TABLE statement or
the privilege query fails when executed, and the INSERT/UPDATE/DELETE
table privileges of the read role on the probe table. -/
structure ProbeWorld where
  fooExists : Bool
  createFails : Bool
  queryFails : Bool
  insertPriv : Bool
  updatePriv : Bool
  deletePriv : Bool
deriving DecidableEq, Repr

/-- Environment of one `configure` run: the outcome of the argv
sniffing for paster commands, the engine compatibility check
`model.engine_is_pg()`, the schema CREATE privilege reported for each
connection URL, and the probe world. -/
structure Env where
  paster : Bool
  engine_is_pg : Bool
  schemaCreatePriv : String → Bool
  probe : ProbeWorld

/-- Instance attributes `configure` has set when it returns: the
`legacy_mode` flag, the three URL attributes (none when the paster
early return skipped their assignment), and the registered action. -/
structure ConfState where
  legacy_mode : Bool
  ckan_url : Option String
  write_url : Option String
  read_url : Option String
  action : Action
deriving DecidableEq, Repr

/-- Index of the last at-sign of a character list, as Python
`str.rindex` computes it; none when no at-sign occurs. -/
def lastAtIndex : List Char → Option Nat
  | [] => none
  | c :: rest =>
    match lastAtIndex rest with
    | some i => some (i + 1)
    | none => if c = '@' then some 0 else none

/-- Models `_get_db_from_url`: the substring of the URL starting at its
last at-sign. Python `str.rindex` raises ValueError when the character
does not occur, so the extraction is partial. -/
def getDbFromUrl (url : String) : Except Err String :=
  match lastAtIndex url.data with
  | none => Except.error Err.valueError
  | some i => Except.ok (String.mk (url.data.drop i))

/-- Models `_same_ckan_and_datastore_db`: in full (non-legacy) mode,
equal write and read URLs short-circuit to true; otherwise the database
identities of the ckan URL and the read URL are extracted and compared,
propagating the ValueError of either extraction. -/
def sameCkanAndDatastoreDb (legacy : Bool) (write_url read_url ckan_url : String) :
    Except Err Bool :=
  if legacy = false ∧ write_url = read_url then Except.ok true
  else
    match getDbFromUrl ckan_url with
    | Except.error e => Except.error e
    | Except.ok a =>
      match getDbFromUrl read_url with
      | Except.error e => Except.error e
      | Except.ok b => if a = b then Except.ok true else Except.ok false

/-- The loop body of `_is_read_only_database`: connect to each URL in
turn, query its schema CREATE privilege, and return false at the first
writable connection; also records the connections made. -/
def isReadOnlyLoop (priv : String → Bool) : List String → Bool × List Eff
  | [] => (true, [])
  | u :: rest =>
    if priv u then (false, [Eff.connect u])
    else
      let r := isReadOnlyLoop priv rest
      (r.1, Eff.connect u :: r.2)

/-- Models `_is_read_only_database`: true when none of the ckan, write
and read connections reports CREATE privilege on the public schema. -/
def isReadOnlyDatabase (priv : String → Bool) (ckan_url write_url read_url : String) : Bool :=
  (isReadOnlyLoop priv [ckan_url, write_url, read_url]).1

/-- Result of the privilege check of `has_table_privilege` for one
privilege name, read off the probe world. -/
def hasTablePrivilege (w : ProbeWorld) (p : String) : Bool :=
  if p = "INSERT" then w.insertPriv
  else if p = "UPDATE" then w.updatePriv
  else if p = "DELETE" then w.deletePriv
  else false

/-- Outcome of the try block of the probe: an early `return False`, a
fall-through (all three privileges absent), or a raised exception. -/
inductive TryOut
  | retFalse
  | fallThrough
  | err (e : Err)
deriving DecidableEq, Repr

/-- The privilege loop inside the try block: returns False at the first
of INSERT, UPDATE, DELETE granted to the read role. -/
def privLoop (w : ProbeWorld) : List String → TryOut
  | [] => TryOut.fallThrough
  | p :: rest =>
    if hasTablePrivilege w p then TryOut.retFalse else privLoop w rest

/-- The try block of `_read_connection_has_correct_privileges`: create
the probe table, then query the three privileges in turn. -/
def probeTryBody (w : ProbeWorld) : TryOut × ProbeWorld :=
  if w.createFails then (TryOut.err Err.createFailed, w)
  else
    let w2 := { w with fooExists := true }
    if w2.queryFails then (TryOut.err Err.queryFailed, w2)
    else (privLoop w2 ["INSERT", "UPDATE", "DELETE"], w2)

/-- The finally block: `DROP TABLE _foo` without IF EXISTS, which
raises when the table does not exist. -/
def probeDrop (w : ProbeWorld) : Except Err Unit × ProbeWorld :=
  if w.fooExists then (Except.ok (), { w with fooExists := false })
  else (Except.error Err.undefinedTable, w)

/-- Models `_read_connection_has_correct_privileges`: first the
statement `DROP TABLE IF EXISTS public._foo` runs outside the try
block (its companion CREATE string is passed as a query parameter and
is not executed, which is why the try block can create the table), then
the try block runs, then the finally drop; following Python semantics,
an exception raised by the finally drop replaces the outcome of the try
block. -/
def readConnectionHasCorrectPrivileges (w : ProbeWorld) : Except Err Bool × ProbeWorld :=
  let w1 := { w with fooExists := false }
  let b := probeTryBody w1
  let d := probeDrop b.2
  match d.1 with
  | Except.error e => (Except.error e, d.2)
  | Except.ok _ =>
    match b.1 with
    | TryOut.retFalse => (Except.ok false, d.2)
    | TryOut.fallThrough => (Except.ok true, d.2)
    | TryOut.err e => (Except.error e, d.2)

/-- Models the wrapping of resource_show at the end of `configure`: if
the currently registered action carries the `_datastore_wrapped`
marker, the registry is left unchanged; otherwise the wrapper (which
issues one extra query per call and carries the marker) is installed. -/
def decorateStep (a : Action) : Action :=
  if a.datastore_wrapped then a
  else { queries := a.queries + 1, datastore_wrapped := true }

/-- The engine-gated part of `configure`: on the supported engine, run
the read-only-replica loop; when writable, run the same-database check
unless debug, then either warn (legacy) or run the privilege probe, and
provision the alias metadata view; on a read-only replica or an
unsupported engine, only warn. -/
def pgChecks (debug : Bool) (env : Env) (legacy : Bool) (curl wurl rurl : String) :
    Except Err Unit × List Eff :=
  if env.engine_is_pg then
    let ro := isReadOnlyLoop env.schemaCreatePriv [curl, wurl, rurl]
    if ro.1 = false then
      let leak : Except Err Unit :=
        if debug = false then
          match sameCkanAndDatastoreDb legacy wurl rurl curl with
          | Except.error e => Except.error e
          | Except.ok true => Except.error Err.sameDatabase
          | Except.ok false => Except.ok ()
        else Except.ok ()
      match leak with
      | Except.error e => (Except.error e, ro.2)
      | Except.ok _ =>
        if legacy then
          (Except.ok (), ro.2 ++ [Eff.warnLegacy, Eff.connect wurl, Eff.ddlCreateAliasView])
        else
          match (readConnectionHasCorrectPrivileges env.probe).1 with
          | Except.error e => (Except.error e, ro.2 ++ [Eff.connect wurl, Eff.connect rurl])
          | Except.ok true =>
            (Except.ok (), ro.2 ++ [Eff.connect wurl, Eff.connect rurl,
                                    Eff.connect wurl, Eff.ddlCreateAliasView])
          | Except.ok false =>
            if debug then
              (Except.ok (), ro.2 ++ [Eff.connect wurl, Eff.connect rurl, Eff.logCritical,
                                      Eff.connect wurl, Eff.ddlCreateAliasView])
            else
              (Except.error Err.privilegeEscalation,
               ro.2 ++ [Eff.connect wurl, Eff.connect rurl])
    else
      (Except.ok (), ro.2 ++ [Eff.warnReadOnly])
  else
    (Except.ok (), [Eff.warnNotPg])

/-- Models `DatastorePlugin.configure`: require the write URL, derive
legacy mode from the absence of the read URL, take the paster early
return, read the ckan URL, alias the read URL to the write URL in
legacy mode, run the engine-gated checks and provisioning, then wrap
resource_show once and run the is_valid_type DDL unconditionally. -/
def configure (cfg : Config) (env : Env) (a : Action) :
    Except Err ConfState × List Eff :=
  match cfg.write_url with
  | none => (Except.error Err.missingWriteUrl, [])
  | some wurl =>
    if env.paster then
      (Except.ok { legacy_mode := cfg.read_url.isNone, ckan_url := none, write_url := none,
                   read_url := none, action := a }, [Eff.warnPaster])
    else
      match cfg.sqlalchemy_url with
      | none => (Except.error Err.keyError, [])
      | some curl =>
        match pgChecks cfg.debug env cfg.read_url.isNone curl wurl (cfg.read_url.getD wurl) with
        | (Except.error e, effs1) => (Except.error e, effs1)
        | (Except.ok _, effs1) =>
          (Except.ok { legacy_mode := cfg.read_url.isNone, ckan_url := some curl,
                       write_url := some wurl, read_url := some (cfg.read_url.getD wurl),
                       action := decorateStep a },
           effs1 ++ [Eff.connect wurl, Eff.ddlCreateIsValidTypeFunction])

/-- Whether a configure run completed without raising. -/
def confOk (r : Except Err ConfState × List Eff) : Bool :=
  match r.1 with
  | Except.ok _ => true
  | Except.error _ => false

/-- An unwrapped registered action issuing no queries. -/
def a0 : Action :=
  { queries := 0, datastore_wrapped := false }

/-- A probe world with no privileges granted and no failures. -/
def probeQuiet : ProbeWorld :=
  { fooExists := false, createFails := false, queryFails := false,
    insertPriv := false, updatePriv := false, deletePriv := false }

/-- A probe world where the read role holds INSERT on the probe table. -/
def probeInsert : ProbeWorld :=
  { probeQuiet with insertPriv := true }

/-- A probe world where the probe table creation fails. -/
def probeCreateFails : ProbeWorld :=
  { probeQuiet with createFails := true }

/-- An environment on the supported engine with every connection
reporting schema CREATE privilege (not a read-only replica). -/
def envPgWritable (p : ProbeWorld) : Env :=
  { paster := false, engine_is_pg := true, schemaCreatePriv := fun _ => true, probe := p }

/-- An environment on an unsupported (non-PostgreSQL) engine. -/
def envNotPg : Env :=
  { paster := false, engine_is_pg := false, schemaCreatePriv := fun _ => false,
    probe := probeQuiet }

/-- A legacy configuration whose ckan URL and write URL point at the
same database (identical substring after the last at-sign). -/
def cfgLegacySame : Config :=
  { write_url := some "postgres://u:p@db/x", read_url := none,
    sqlalchemy_url := some "postgres://a:b@db/x", debug := false }

/-- A full-mode debug configuration whose ckan URL has no at-sign. -/
def cfgDebugNoAt : Config :=
  { write_url := some "w@x", read_url := some "r@y",
    sqlalchemy_url := some "nodb", debug := true }

/-- A plain full-mode configuration with three distinct databases. -/
def cfgFull : Config :=
  { write_url := some "w@x", read_url := some "r@y",
    sqlalchemy_url := some "c@z", debug := false }

/-- A legacy configuration with distinct ckan and write databases. -/
def cfgLegacy : Config :=
  { write_url := some "w@x", read_url := none,
    sqlalchemy_url := some "c@z", debug := false }

/-- A full-mode configuration whose read URL has no at-sign. -/
def cfgReadNoAt : Config :=
  { write_url := some "w@x", read_url := some "nodb2",
    sqlalchemy_url := some "c@z", debug := false }

/-- Helper: the last at-sign index is none exactly when the list has no
at-sign, mirroring the ValueError condition of Python rindex. -/
theorem lastAtIndex_eq_none (l : List Char) : lastAtIndex l = none ↔ '@' ∉ l := by
  induction l with
  | nil => simp [lastAtIndex]
  | cons c rest ih =>
    simp only [lastAtIndex, List.mem_cons]
    cases h : lastAtIndex rest with
    | some i =>
      have hr : '@' ∈ rest := by
        by_contra hn
        rw [← ih] at hn
        simp [h] at hn
      simp [hr]
    | none =>
      have hr : '@' ∉ rest := ih.mp h
      by_cases hc : c = '@'
      · simp [hc]
      · simp [hc, hr, Ne.symm hc]

/-- Helper: a wrapped action is a fixed point of the decoration step. -/
theorem decorateStep_wrapped (a : Action) (h : a.datastore_wrapped = true) :
    decorateStep a = a := by
  simp [decorateStep, h]

/-- Helper: the only error the database-identity extraction raises is
the ValueError of rindex. -/
theorem getDbFromUrl_error (url : String) (e : Err)
    (h : getDbFromUrl url = Except.error e) : e = Err.valueError := by
  unfold getDbFromUrl at h
  cases hl : lastAtIndex url.data <;> rw [hl] at h <;> simp_all

/-- Helper: the only error the same-database check raises is the
ValueError propagated from the identity extraction. -/
theorem sameCkan_error (legacy : Bool) (wurl rurl curl : String) (e : Err)
    (h : sameCkanAndDatastoreDb legacy wurl rurl curl = Except.error e) :
    e = Err.valueError := by
  unfold sameCkanAndDatastoreDb at h
  by_cases hc : legacy = false ∧ wurl = rurl
  · simp [hc] at h
  · rw [if_neg hc] at h
    cases h1 : getDbFromUrl curl with
    | error e1 =>
      have he1 := getDbFromUrl_error curl e1 h1
      rw [h1] at h
      simp at h
      simp_all
    | ok a =>
      rw [h1] at h
      cases h2 : getDbFromUrl rurl with
      | error e2 =>
        have he2 := getDbFromUrl_error rurl e2 h2
        rw [h2] at h
        simp at h
        simp_all
      | ok b =>
        rw [h2] at h
        by_cases hab : a = b <;> simp [hab] at h

/-- Helper: in legacy mode the engine-gated checks can only fail with
the same-database error or the ValueError of the identity extraction;
the privilege probe never runs. -/
theorem pgChecks_legacy_err (dbg : Bool) (env : Env) (curl wurl rurl : String) (e : Err)
    (h : (pgChecks dbg env true curl wurl rurl).1 = Except.error e) :
    e = Err.sameDatabase ∨ e = Err.valueError := by
  cases hpg : env.engine_is_pg
  · simp [pgChecks, hpg] at h
  · by_cases hro : (isReadOnlyLoop env.schemaCreatePriv [curl, wurl, rurl]).1 = false
    · by_cases hd : dbg = false
      · cases hl : sameCkanAndDatastoreDb true wurl rurl curl with
        | error e1 =>
          have he1 := sameCkan_error true wurl rurl curl e1 hl
          simp [pgChecks, hpg, hro, hd, hl] at h
          right
          simp_all
        | ok b =>
          cases b
          · simp [pgChecks, hpg, hro, hd, hl] at h
          · simp [pgChecks, hpg, hro, hd, hl] at h
            left
            simp_all
      · simp [pgChecks, hpg, hro, hd] at h
    · simp [pgChecks, hpg, hro] at h

/-- Helper: on an unsupported engine the checks succeed with only the
warning effect. -/
theorem pgChecks_notPg (dbg : Bool) (env : Env) (legacy : Bool) (curl wurl rurl : String)
    (h : env.engine_is_pg = false) :
    pgChecks dbg env legacy curl wurl rurl = (Except.ok (), [Eff.warnNotPg]) := by
  simp [pgChecks, h]

/-- Helper: every successful run of the engine-gated checks in legacy
mode on a writable supported backend has emitted the legacy
SQL-search-unavailability warning. -/
theorem pgChecks_legacy_ok_warn (dbg : Bool) (env : Env) (curl wurl rurl : String)
    (u : Unit) (effs1 : List Eff)
    (hpg : env.engine_is_pg = true)
    (hro : (isReadOnlyLoop env.schemaCreatePriv [curl, wurl, rurl]).1 = false)
    (h : pgChecks dbg env true curl wurl rurl = (Except.ok u, effs1)) :
    Eff.warnLegacy ∈ effs1 := by
  cases dbg
  · cases hl : sameCkanAndDatastoreDb true wurl rurl curl with
    | error e1 =>
      simp [pgChecks, hpg, hro, hl] at h
    | ok b =>
      cases b
      · simp [pgChecks, hpg, hro, hl] at h
        rw [← h]
        simp
      · simp [pgChecks, hpg, hro, hl] at h
  · simp [pgChecks, hpg, hro] at h
    rw [← h]
    simp

/-- Claim C1: sameCkanAndDatastoreDb returns true iff (full mode and
the write URL equals the read URL) or the database identities (suffix
from the last at-sign) of the ckan URL and of the read URL both exist
and coincide; in particular equal write and read URLs in full mode give
true even when the primary database differs. -/
theorem claim_C1 :
    (∀ (legacy : Bool) (wurl rurl curl : String),
      sameCkanAndDatastoreDb legacy wurl rurl curl = Except.ok true ↔
        ((legacy = false ∧ wurl = rurl) ∨
         ∃ d, getDbFromUrl curl = Except.ok d ∧ getDbFromUrl rurl = Except.ok d)) ∧
    sameCkanAndDatastoreDb false "postgres://u:p@host/db" "postgres://u:p@host/db"
      "postgres://x:y@other/db2" = Except.ok true := by
  constructor
  · intro legacy wurl rurl curl
    unfold sameCkanAndDatastoreDb
    by_cases h : legacy = false ∧ wurl = rurl
    · simp [h]
    · simp only [if_neg h]
      cases hc : getDbFromUrl curl with
      | error e => simp [h, hc]
      | ok a =>
        cases hr : getDbFromUrl rurl with
        | error e => simp [h, hr]
        | ok b =>
          by_cases hab : a = b
          · subst hab
            simp [h]
          · simp [hab, h]
            exact fun hba => hab hba.symm
  · decide

/-- Claim C4 counterexample: when the probe table creation fails, the
unconditional finally drop fails too (the table does not exist) and its
error replaces the original creation failure, so a failure of the drop
step does mask the original probe result. -/
theorem claim_C4_counterexample :
    (readConnectionHasCorrectPrivileges probeCreateFails).1 =
      Except.error Err.undefinedTable ∧
    Err.undefinedTable ≠ Err.createFailed := by
  decide

/-- Claim C4 (amended): the probe table is absent after every run of
the privilege probe and the finally drop always executes: with no
injected failure the probe returns the boolean privilege verdict, a
failing privilege query propagates unmasked (the drop succeeded first),
but a failing creation makes the drop raise and its error replaces
(masks) the creation error, contrary to the no-masking clause. -/
theorem claim_C4_amended : ∀ w : ProbeWorld,
    (readConnectionHasCorrectPrivileges w).2.fooExists = false ∧
    (w.createFails = false → w.queryFails = false →
      (readConnectionHasCorrectPrivileges w).1 =
        Except.ok (!(w.insertPriv || w.updatePriv || w.deletePriv))) ∧
    (w.createFails = false → w.queryFails = true →
      (readConnectionHasCorrectPrivileges w).1 = Except.error Err.queryFailed) ∧
    (w.createFails = true →
      (readConnectionHasCorrectPrivileges w).1 = Except.error Err.undefinedTable) := by
  intro w
  obtain ⟨fe, cf, qf, ip, up, dp⟩ := w
  cases fe <;> cases cf <;> cases qf <;> cases ip <;> cases up <;> cases dp <;> decide

/-- Claim C4 witness: the amended theorem evaluated at a probe world
where the read role holds INSERT: the table is absent afterwards and
the probe reports the excess privilege. -/
theorem claim_C4_witness :
    (readConnectionHasCorrectPrivileges probeInsert).2.fooExists = false ∧
    (readConnectionHasCorrectPrivileges probeInsert).1 = Except.ok false := by
  have h := claim_C4_amended probeInsert
  exact ⟨h.1, h.2.1 rfl rfl⟩

/-- Claim C5: isReadOnlyDatabase is true iff none of the ckan, write
and read connections reports schema CREATE privilege, and false as soon
as one does; checked on the stub results true,false,false and
false,false,false. -/
theorem claim_C5 :
    (∀ (priv : String → Bool) (c w r : String),
      isReadOnlyDatabase priv c w r = true ↔
        (priv c = false ∧ priv w = false ∧ priv r = false)) ∧
    isReadOnlyDatabase (fun u => u == "c") "c" "w" "r" = false ∧
    isReadOnlyDatabase (fun _ => false) "c" "w" "r" = true := by
  refine ⟨?_, by decide, by decide⟩
  intro priv c w r
  cases h1 : priv c <;> cases h2 : priv w <;> cases h3 : priv r <;>
    simp [isReadOnlyDatabase, isReadOnlyLoop, h1, h2, h3]

/-- Claim C8: a configuration without the write URL makes configure
fail with the missing-option error at once, with an empty effect trace,
so no database connection is attempted before the failure. -/
theorem claim_C8 : ∀ (cfg : Config) (env : Env) (a : Action),
    cfg.write_url = none →
    configure cfg env a = (Except.error Err.missingWriteUrl, []) := by
  intro cfg env a h
  simp [configure, h]

/-- Claim C8 witness: the theorem evaluated at a concrete configuration
lacking the write URL. -/
theorem claim_C8_witness :
    configure { write_url := none, read_url := some "r@y",
                sqlalchemy_url := some "c@z", debug := false } envNotPg a0 =
      (Except.error Err.missingWriteUrl, []) :=
  claim_C8 _ _ _ rfl

/-- Claim C2 counterexample: a legacy configuration (no read URL) whose
ckan and write URLs share the same database identity makes configure
raise the same-database error, so the leak check is not skipped in
legacy mode. -/
theorem claim_C2_counterexample :
    cfgLegacySame.read_url = none ∧
    (configure cfgLegacySame (envPgWritable probeQuiet) a0).1 =
      Except.error Err.sameDatabase := by
  constructor
  · rfl
  · rfl

/-- Claim C2 (amended): in legacy mode configure skips only the
privilege probe, so the privilege-escalation error is unreachable;
every legacy run that completes on a writable supported backend emits
the legacy SQL-search-unavailability warning; but the same-database
leak check still runs (unless debug) and can abort with the
same-database error, as the concrete legacy run shows. -/
theorem claim_C2_amended :
    (∀ (cfg : Config) (env : Env) (a : Action) (effs : List Eff),
       cfg.read_url = none →
       configure cfg env a ≠ (Except.error Err.privilegeEscalation, effs)) ∧
    (∀ (cfg : Config) (env : Env) (a : Action) (wurl curl : String) (st : ConfState)
       (effs : List Eff),
       cfg.write_url = some wurl → cfg.read_url = none → cfg.sqlalchemy_url = some curl →
       env.paster = false → env.engine_is_pg = true →
       (isReadOnlyLoop env.schemaCreatePriv [curl, wurl, wurl]).1 = false →
       configure cfg env a = (Except.ok st, effs) →
       Eff.warnLegacy ∈ effs) ∧
    (configure cfgLegacySame (envPgWritable probeQuiet) a0).1 =
      Except.error Err.sameDatabase := by
  refine ⟨?_, ?_, rfl⟩
  · intro cfg env a effs hru h
    unfold configure at h
    split at h
    · simp at h
    · split at h
      · simp at h
      · split at h
        · simp at h
        · split at h
          · rename_i e effs1 heq
            simp only [Prod.mk.injEq, Except.error.injEq] at h
            obtain ⟨he, _⟩ := h
            subst he
            have h1 := congrArg Prod.fst heq
            rw [hru] at h1
            simp only [Option.isNone_none, Option.getD_none] at h1
            rcases pgChecks_legacy_err _ _ _ _ _ _ h1 with h2 | h2 <;> simp at h2
          · simp at h
  · intro cfg env a wurl curl st effs hw hru hs hp hpg hro h
    simp only [configure, hw, hru, hs] at h
    rw [hp] at h
    simp only [Bool.false_eq_true, if_false, Option.isNone_none, Option.getD_none] at h
    cases hq : pgChecks cfg.debug env true curl wurl wurl with
    | mk res effs1 =>
      rw [hq] at h
      cases res with
      | error e => simp at h
      | ok u =>
        simp only [Prod.mk.injEq, Except.ok.injEq] at h
        obtain ⟨_, heffs⟩ := h
        rw [← heffs]
        exact List.mem_append_left _ (pgChecks_legacy_ok_warn _ _ _ _ _ _ _ hpg hro hq)

/-- Claim C2 witness: part one of the amended theorem applied to a
concrete legacy configuration, and part two applied to a completed
legacy run on a writable supported backend, whose trace contains the
legacy warning. -/
theorem claim_C2_witness :
    (configure cfgLegacy envNotPg a0 ≠ (Except.error Err.privilegeEscalation, [])) ∧
    Eff.warnLegacy ∈ ([Eff.connect "c@z", Eff.warnLegacy, Eff.connect "w@x",
      Eff.ddlCreateAliasView, Eff.connect "w@x", Eff.ddlCreateIsValidTypeFunction] : List Eff) :=
  ⟨(claim_C2_amended).1 cfgLegacy envNotPg a0 [] rfl,
   (claim_C2_amended).2.1 cfgLegacy (envPgWritable probeQuiet) a0 "w@x" "c@z"
     { legacy_mode := true, ckan_url := some "c@z", write_url := some "w@x",
       read_url := some "w@x", action := decorateStep a0 }
     [Eff.connect "c@z", Eff.warnLegacy, Eff.connect "w@x", Eff.ddlCreateAliasView,
      Eff.connect "w@x", Eff.ddlCreateIsValidTypeFunction]
     rfl rfl rfl rfl rfl (by decide) rfl⟩

/-- Claim C3: with debug set, not legacy and not a read-only replica,
the same-database check is skipped entirely (the run is independent of
the ckan URL, which may even lack an at-sign, and never raises), while
the privilege probe is still evaluated; when it reports excess
privileges the run only logs at critical severity and continues to both
bootstrap DDL steps, ending successfully. -/
theorem claim_C3 : ∀ (cfg : Config) (env : Env) (a : Action) (wurl rurl curl : String),
    cfg.write_url = some wurl → cfg.read_url = some rurl → cfg.sqlalchemy_url = some curl →
    cfg.debug = true → env.paster = false → env.engine_is_pg = true →
    (isReadOnlyLoop env.schemaCreatePriv [curl, wurl, rurl]).1 = false →
    (readConnectionHasCorrectPrivileges env.probe).1 = Except.ok false →
    configure cfg env a =
      (Except.ok { legacy_mode := false, ckan_url := some curl, write_url := some wurl,
                   read_url := some rurl, action := decorateStep a },
       (isReadOnlyLoop env.schemaCreatePriv [curl, wurl, rurl]).2 ++
         [Eff.connect wurl, Eff.connect rurl, Eff.logCritical, Eff.connect wurl,
          Eff.ddlCreateAliasView, Eff.connect wurl, Eff.ddlCreateIsValidTypeFunction]) := by
  intro cfg env a wurl rurl curl hw hr hs hd hp hpg hro hprobe
  have hpc : pgChecks true env false curl wurl rurl =
      (Except.ok (), (isReadOnlyLoop env.schemaCreatePriv [curl, wurl, rurl]).2 ++
        [Eff.connect wurl, Eff.connect rurl, Eff.logCritical, Eff.connect wurl,
         Eff.ddlCreateAliasView]) := by
    simp [pgChecks, hpg, hro, hprobe]
  simp [configure, hw, hp, hs, hr, hd, hpc]

/-- Claim C3 witness: the theorem evaluated at a debug configuration
whose ckan URL has no at-sign, on a writable backend whose read role
holds INSERT on the probe table. -/
theorem claim_C3_witness :
    configure cfgDebugNoAt (envPgWritable probeInsert) a0 =
      (Except.ok { legacy_mode := false, ckan_url := some "nodb", write_url := some "w@x",
                   read_url := some "r@y", action := decorateStep a0 },
       (isReadOnlyLoop (envPgWritable probeInsert).schemaCreatePriv ["nodb", "w@x", "r@y"]).2 ++
         [Eff.connect "w@x", Eff.connect "r@y", Eff.logCritical, Eff.connect "w@x",
          Eff.ddlCreateAliasView, Eff.connect "w@x", Eff.ddlCreateIsValidTypeFunction]) :=
  claim_C3 cfgDebugNoAt (envPgWritable probeInsert) a0 "w@x" "r@y" "nodb"
    rfl rfl rfl rfl rfl rfl (by decide) (by decide)

/-- Claim C6: the claim is contradicted by the code on a non-supported
engine: configure still issues the type-validity CREATE FUNCTION
statement (the call stands after, and outside, the engine gate), while
the alias-view statement is correctly gated; the run completes with the
unsupported-engine warning. -/
theorem claim_C6_bug :
    Eff.ddlCreateIsValidTypeFunction ∈ (configure cfgFull envNotPg a0).2 ∧
    Eff.ddlCreateAliasView ∉ (configure cfgFull envNotPg a0).2 ∧
    envNotPg.engine_is_pg = false ∧
    confOk (configure cfgFull envNotPg a0) = true := by
  decide

/-- Claim C7: the read-action decoration is installed at most once per
process: the decoration step is idempotent, wrapping an unwrapped
action adds exactly one query per call and sets the marker, any number
of repeated decoration steps adds exactly one query, and every
successful non-paster configure run installs exactly the decoration
step on the registered action. -/
theorem claim_C7 :
    (∀ a : Action, decorateStep (decorateStep a) = decorateStep a) ∧
    (∀ a : Action, a.datastore_wrapped = false →
       (decorateStep a).queries = a.queries + 1 ∧ (decorateStep a).datastore_wrapped = true) ∧
    (∀ (a : Action) (n : Nat), a.datastore_wrapped = false → 1 ≤ n →
       (decorateStep^[n] a).queries = a.queries + 1) ∧
    (∀ (cfg : Config) (env : Env) (a : Action) (st : ConfState) (effs : List Eff),
       env.paster = false → configure cfg env a = (Except.ok st, effs) →
       st.action = decorateStep a) := by
  refine ⟨?_, ?_, ?_, ?_⟩
  · intro a
    apply decorateStep_wrapped
    by_cases h : a.datastore_wrapped <;> simp [decorateStep, h]
  · intro a h
    simp [decorateStep, h]
  · intro a n h h1
    obtain ⟨m, rfl⟩ : ∃ m, n = m + 1 := ⟨n - 1, (Nat.succ_pred_eq_of_pos h1).symm⟩
    rw [Function.iterate_succ_apply]
    rw [Function.iterate_fixed (decorateStep_wrapped _ (by simp [decorateStep, h]))]
    simp [decorateStep, h]
  · intro cfg env a st effs hp h
    unfold configure at h
    split at h
    · simp at h
    · split at h
      · rename_i hcond
        rw [hp] at hcond
        simp at hcond
      · split at h
        · simp at h
        · split at h
          · simp at h
          · simp only [Prod.mk.injEq, Except.ok.injEq] at h
            obtain ⟨hst, _⟩ := h
            subst hst
            rfl

/-- Claim C7 witness: three repeated decoration steps on the unwrapped
action add exactly one query. -/
theorem claim_C7_witness : (decorateStep^[3] a0).queries = a0.queries + 1 :=
  (claim_C7).2.2.1 a0 3 rfl (by decide)

/-- Claim C9: on every completed configure run, legacy mode holds iff
the read URL option is absent, and in legacy mode the read endpoint is
exactly the write endpoint. -/
theorem claim_C9 : ∀ (cfg : Config) (env : Env) (a : Action) (st : ConfState) (effs : List Eff),
    configure cfg env a = (Except.ok st, effs) →
    (st.legacy_mode = true ↔ cfg.read_url = none) ∧
    (st.legacy_mode = true → st.read_url = st.write_url) := by
  intro cfg env a st effs h
  unfold configure at h
  split at h
  · simp at h
  · split at h
    · simp only [Prod.mk.injEq, Except.ok.injEq] at h
      obtain ⟨hst, _⟩ := h
      subst hst
      constructor
      · simp [Option.isNone_iff_eq_none]
      · intro _
        rfl
    · split at h
      · simp at h
      · split at h
        · simp at h
        · simp only [Prod.mk.injEq, Except.ok.injEq] at h
          obtain ⟨hst, _⟩ := h
          subst hst
          constructor
          · simp [Option.isNone_iff_eq_none]
          · intro hleg
            simp only at hleg
            simp only [Option.isNone_iff_eq_none] at hleg
            simp [hleg]

/-- Claim C9 witness: the theorem evaluated at a completed legacy run
on a non-supported engine. -/
theorem claim_C9_witness :
    (({ legacy_mode := true, ckan_url := some "c@z", write_url := some "w@x",
        read_url := some "w@x", action := decorateStep a0 } : ConfState).legacy_mode = true ↔
      cfgLegacy.read_url = none) ∧
    (({ legacy_mode := true, ckan_url := some "c@z", write_url := some "w@x",
        read_url := some "w@x", action := decorateStep a0 } : ConfState).legacy_mode = true →
      ({ legacy_mode := true, ckan_url := some "c@z", write_url := some "w@x",
         read_url := some "w@x", action := decorateStep a0 } : ConfState).read_url =
      ({ legacy_mode := true, ckan_url := some "c@z", write_url := some "w@x",
         read_url := some "w@x", action := decorateStep a0 } : ConfState).write_url) :=
  claim_C9 cfgLegacy envNotPg a0
    { legacy_mode := true, ckan_url := some "c@z", write_url := some "w@x",
      read_url := some "w@x", action := decorateStep a0 }
    [Eff.warnNotPg, Eff.connect "w@x", Eff.ddlCreateIsValidTypeFunction] rfl

/-- Claim C10 counterexample: a configuration whose ckan (primary) URL
has no at-sign completes successfully when debug is set, so configure
does not abort whenever the primary or read URL lacks an at-sign. -/
theorem claim_C10_counterexample :
    '@' ∉ ("nodb" : String).data ∧
    confOk (configure cfgDebugNoAt (envPgWritable probeQuiet) a0) = true := by
  decide

/-- Claim C10 (amended): the database-identity extraction is partial,
failing with ValueError exactly on URLs without an at-sign; when the
leak check is actually evaluated (supported engine, not a read-only
replica, debug unset, write and read URLs distinct in full mode), a
primary or read URL without an at-sign makes configure abort with that
uncategorized ValueError; outside those conditions the check is skipped
or short-circuited and the error branch is not reached. -/
theorem claim_C10_amended :
    (∀ url : String, getDbFromUrl url = Except.error Err.valueError ↔ '@' ∉ url.data) ∧
    (∀ (cfg : Config) (env : Env) (a : Action) (wurl rurl curl : String),
       cfg.write_url = some wurl → cfg.read_url = some rurl →
       cfg.sqlalchemy_url = some curl → cfg.debug = false →
       env.paster = false → env.engine_is_pg = true →
       (isReadOnlyLoop env.schemaCreatePriv [curl, wurl, rurl]).1 = false →
       wurl ≠ rurl →
       ('@' ∉ curl.data ∨ '@' ∉ rurl.data) →
       (configure cfg env a).1 = Except.error Err.valueError) := by
  constructor
  · intro url
    unfold getDbFromUrl
    cases h : lastAtIndex url.data
    · simp [(lastAtIndex_eq_none url.data).mp h]
    · have hmem : '@' ∈ url.data := by
        by_contra hn
        rw [← lastAtIndex_eq_none] at hn
        simp [h] at hn
      simp [hmem]
  · intro cfg env a wurl rurl curl hw hr hs hd hp hpg hro hne hat
    have hleak : sameCkanAndDatastoreDb false wurl rurl curl = Except.error Err.valueError := by
      unfold sameCkanAndDatastoreDb
      rw [if_neg (by simp [hne])]
      rcases hat with hat | hat
      · have hcurl : getDbFromUrl curl = Except.error Err.valueError := by
          unfold getDbFromUrl
          rw [(lastAtIndex_eq_none curl.data).mpr hat]
        rw [hcurl]
      · cases hc : getDbFromUrl curl with
        | error e1 =>
          have := getDbFromUrl_error curl e1 hc
          subst this
          rfl
        | ok a2 =>
          have hrurl : getDbFromUrl rurl = Except.error Err.valueError := by
            unfold getDbFromUrl
            rw [(lastAtIndex_eq_none rurl.data).mpr hat]
          rw [hrurl]
    have hpc : pgChecks false env false curl wurl rurl =
        (Except.error Err.valueError,
         (isReadOnlyLoop env.schemaCreatePriv [curl, wurl, rurl]).2) := by
      simp [pgChecks, hpg, hro, hleak]
    simp [configure, hw, hp, hs, hr, hd, hpc]

/-- Claim C10 witness: the amended theorem applied to a full-mode
configuration whose read URL has no at-sign. -/
theorem claim_C10_witness :
    (configure cfgReadNoAt (envPgWritable probeQuiet) a0).1 = Except.error Err.valueError :=
  (claim_C10_amended).2 cfgReadNoAt (envPgWritable probeQuiet) a0 "w@x" "nodb2" "c@z"
    rfl rfl rfl rfl rfl rfl (by decide) (by decide) (Or.inr (by decide))

end Datastore
